import Mathlib

/-!
# TLVulkanRenderer: material constructors

A shallow embedding of the constructors of `Material`
(`src/geometry/materials/Material.h`) and `GlassMaterial`
(`src/geometry/materials/GlassMaterial.h`), and the properties of the objects
they build.

Conventions of the embedding:

* a C++ `float` is an IEEE-754 binary32 value given by its three bit fields, so
  that copying a value is equality of bits and the comparison `x >= 0.0f` is
  decided on the bit fields;
* a `Texture*` is a pointer value: either `nullptr` or an address. No
  constructor receives the memory behind the pointer;
* a member that a constructor does not initialise keeps whatever the storage
  of the object held before; that storage is an explicit argument.
-/

namespace TLVulkanRenderer

/-! ## Scalar, vector and pointer values -/

/-- An IEEE-754 binary32 value (the C++ type `float`): sign bit, 8-bit biased
exponent, 23-bit fraction. -/
structure Float32 where
  sign : Bool
  exponent : Fin 256
  mantissa : Fin 8388608
deriving DecidableEq, Repr

namespace Float32

/-- The value `+0.0f`. It is what the integer literal `0` of
`m_shininess(0)` and the double literal `0.0` of `m_reflectivity(0.0)` convert
to when they initialise a `float` member. -/
def zero : Float32 := ⟨false, 0, 0⟩

/-- The value `1.0f` (biased exponent 127, empty fraction). -/
def one : Float32 := ⟨false, 127, 0⟩

/-- The value `-1.0f`. -/
def neg_one : Float32 := ⟨true, 127, 0⟩

/-- NaN: all exponent bits set and a non-empty fraction. -/
def isNaN (x : Float32) : Bool :=
  decide (x.exponent = 255) && !decide (x.mantissa = 0)

/-- Either zero, `+0.0f` or `-0.0f`. -/
def isZero (x : Float32) : Bool :=
  decide (x.exponent = 0) && decide (x.mantissa = 0)

/-- The C++ comparison `x >= 0.0f`: false on a NaN, true on both zeros, and
otherwise decided by the sign bit. -/
def ge_zero (x : Float32) : Bool :=
  !x.isNaN && (!x.sign || x.isZero)

end Float32

/-- The vector type `glm::vec3`: three `float` components. -/
structure vec3 where
  x : Float32
  y : Float32
  z : Float32
deriving DecidableEq, Repr

/-- The value-initialised temporary `glm::vec3()`: the zero vector. -/
def vec3.zero : vec3 := ⟨Float32.zero, Float32.zero, Float32.zero⟩

/-- Modelled from the spec: `ColorRGB` is declared in `Color.h`, which is not
among the sources. The spec calls every colour of a material "an RGB triple",
and `Material.h` initialises `ColorRGB` members from `glm::vec3()`. -/
abbrev ColorRGB := vec3

/-- A value of type `Texture*`: `none` is `nullptr`, `some a` points at
address `a`. -/
abbrev TexturePtr := Option Nat

/-- The null pointer, the default of the `texture` argument. -/
def nullptr : TexturePtr := none

/-- Modelled from the spec: `MaterialPacked` is declared in
`scene/SceneUtil.h`, which is not among the sources. The spec describes it as
"a packed material-parameter bundle (diffuse/ambient/emission/specular colors,
shininess, transparency/refractive value)"; the field names are the ones
`Material.h` reads. -/
structure MaterialPacked where
  diffuse : ColorRGB
  ambient : ColorRGB
  emission : ColorRGB
  specular : ColorRGB
  shininess : Float32
  transparency : Float32
deriving DecidableEq, Repr

/-! ## `Material` -/

/-- The data members of `class Material` (Material.h:39-48). -/
structure Material where
  m_colorDiffuse : ColorRGB
  m_colorAmbient : ColorRGB
  m_colorEmission : ColorRGB
  m_colorSpecular : ColorRGB
  m_colorReflective : ColorRGB
  m_colorTransparent : ColorRGB
  m_shininess : Float32
  m_refracti : Float32
  m_reflectivity : Float32
  m_texture : TexturePtr
deriving DecidableEq, Repr

/-- The constructor `Material()` (Material.h:13-15). Its initialiser list
names `m_shininess`, `m_refracti` and `m_reflectivity` only; every other
member keeps the contents of `storage`. -/
def Material.ctor_default (storage : Material) : Material :=
  { storage with
    m_shininess := Float32.zero
    m_refracti := Float32.zero
    m_reflectivity := Float32.zero }

/-- The constructor `Material(MaterialPacked packed, Texture* texture)`
(Material.h:16-27). All ten members are initialised. -/
def Material.ctor_packed (packed : MaterialPacked) (texture : TexturePtr) : Material :=
  { m_colorDiffuse := packed.diffuse
    m_colorAmbient := packed.ambient
    m_colorEmission := packed.emission
    m_colorSpecular := packed.specular
    m_colorReflective := vec3.zero
    m_colorTransparent := vec3.zero
    m_shininess := packed.shininess
    m_refracti := packed.transparency
    m_reflectivity := Float32.zero
    m_texture := texture }

/-- The call `Material(packed)`: the omitted argument takes its declared
default, `Texture* texture = nullptr`. -/
def Material.ctor_packed_no_texture (packed : MaterialPacked) : Material :=
  Material.ctor_packed packed nullptr

/-! ## `GlassMaterial` -/

/-- The class `GlassMaterial : public Material` (GlassMaterial.h:4-23). It
declares no data member of its own. Its constructor assigns `m_castShadow`,
`m_receiveShadow` and `m_translucent`, whose declaration is in none of the
sources.

Modelled from the spec: the three flags are the "shadow-casting and
shadow-receiving flags, translucency flag" of the spec's data model, taken as
boolean members. -/
structure GlassMaterial extends Material where
  m_castShadow : Bool
  m_receiveShadow : Bool
  m_translucent : Bool
deriving DecidableEq, Repr

/-- The constructor `GlassMaterial() : Material() {}` (GlassMaterial.h:7). -/
def GlassMaterial.ctor_default (storage : GlassMaterial) : GlassMaterial :=
  { storage with toMaterial := Material.ctor_default storage.toMaterial }

/-- The constructor `GlassMaterial(MaterialPacked packed, Texture* texture)`
(GlassMaterial.h:8-14): the base is built by `Material(packed, texture)`, then
the body assigns the three flags in order. Before the body runs the flags hold
what `storage` holds. -/
def GlassMaterial.ctor_packed (storage : GlassMaterial) (packed : MaterialPacked)
    (texture : TexturePtr) : GlassMaterial :=
  let s0 : GlassMaterial := { storage with toMaterial := Material.ctor_packed packed texture }
  let s1 : GlassMaterial := { s0 with m_castShadow := true }
  let s2 : GlassMaterial := { s1 with m_receiveShadow := true }
  { s2 with m_translucent := false }

/-! ## Sample inputs -/

/-- The colour white, `(1, 1, 1)`. -/
def sampleColor : ColorRGB := ⟨Float32.one, Float32.one, Float32.one⟩

/-- A well-formed bundle whose shininess is `-1.0f`. -/
def negativeShininessPacked : MaterialPacked :=
  { diffuse := sampleColor
    ambient := sampleColor
    emission := sampleColor
    specular := sampleColor
    shininess := Float32.neg_one
    transparency := Float32.one }

/-! ## Properties of the constructors -/

/-- The comparison `+0.0f >= 0.0f` holds. -/
theorem Float32.ge_zero_zero : Float32.ge_zero Float32.zero = true := by
  decide

/-- C1: a material built by the packed constructor, directly by
`Material(p, t)` or through `GlassMaterial(p, t)`, has diffuse, ambient,
emission and specular colour equal to `p.diffuse`, `p.ambient`, `p.emission`
and `p.specular`, shininess equal to `p.shininess` and refractive index equal
to `p.transparency`. -/
theorem ctor_packed_copies_bundle (storage : GlassMaterial) (p : MaterialPacked)
    (t : TexturePtr) :
    ((Material.ctor_packed p t).m_colorDiffuse = p.diffuse ∧
      (Material.ctor_packed p t).m_colorAmbient = p.ambient ∧
      (Material.ctor_packed p t).m_colorEmission = p.emission ∧
      (Material.ctor_packed p t).m_colorSpecular = p.specular ∧
      (Material.ctor_packed p t).m_shininess = p.shininess ∧
      (Material.ctor_packed p t).m_refracti = p.transparency) ∧
    ((GlassMaterial.ctor_packed storage p t).m_colorDiffuse = p.diffuse ∧
      (GlassMaterial.ctor_packed storage p t).m_colorAmbient = p.ambient ∧
      (GlassMaterial.ctor_packed storage p t).m_colorEmission = p.emission ∧
      (GlassMaterial.ctor_packed storage p t).m_colorSpecular = p.specular ∧
      (GlassMaterial.ctor_packed storage p t).m_shininess = p.shininess ∧
      (GlassMaterial.ctor_packed storage p t).m_refracti = p.transparency) :=
  ⟨⟨rfl, rfl, rfl, rfl, rfl, rfl⟩, ⟨rfl, rfl, rfl, rfl, rfl, rfl⟩⟩

/-- C2: reflectivity is exactly `+0.0f` after the default constructor,
whatever the storage held, and after the packed constructor, whatever the
bundle and the texture pointer are; the same holds for the two `GlassMaterial`
constructors, which delegate to them. -/
theorem reflectivity_defaults_to_zero :
    (∀ storage : Material,
      (Material.ctor_default storage).m_reflectivity = Float32.zero) ∧
    (∀ (p : MaterialPacked) (t : TexturePtr),
      (Material.ctor_packed p t).m_reflectivity = Float32.zero) ∧
    (∀ storage : GlassMaterial,
      (GlassMaterial.ctor_default storage).m_reflectivity = Float32.zero) ∧
    (∀ (storage : GlassMaterial) (p : MaterialPacked) (t : TexturePtr),
      (GlassMaterial.ctor_packed storage p t).m_reflectivity = Float32.zero) :=
  ⟨fun _ => rfl, fun _ _ => rfl, fun _ => rfl, fun _ _ _ => rfl⟩

/-- C3, as stated, fails: the packed constructor applied to a bundle whose
shininess is `-1.0f` builds a material whose shininess is `-1.0f`, for which
`m_shininess >= 0.0f` is false. -/
theorem ctor_packed_negative_shininess :
    (Material.ctor_packed negativeShininessPacked nullptr).m_shininess = Float32.neg_one ∧
    Float32.ge_zero (Material.ctor_packed negativeShininessPacked nullptr).m_shininess
      = false := by
  decide

/-- C3, amended: after the default constructor reflectivity, shininess and
refractive index are all non-negative; after the packed constructor
reflectivity is non-negative, and shininess and refractive index are
non-negative exactly when `p.shininess` and `p.transparency` are. -/
theorem ctor_nonneg_fields :
    (∀ storage : Material,
      Float32.ge_zero (Material.ctor_default storage).m_reflectivity = true ∧
      Float32.ge_zero (Material.ctor_default storage).m_shininess = true ∧
      Float32.ge_zero (Material.ctor_default storage).m_refracti = true) ∧
    (∀ (p : MaterialPacked) (t : TexturePtr),
      Float32.ge_zero (Material.ctor_packed p t).m_reflectivity = true ∧
      (Float32.ge_zero (Material.ctor_packed p t).m_shininess = true ↔
        Float32.ge_zero p.shininess = true) ∧
      (Float32.ge_zero (Material.ctor_packed p t).m_refracti = true ↔
        Float32.ge_zero p.transparency = true)) := by
  refine ⟨fun _ => ⟨?_, ?_, ?_⟩, fun _ _ => ⟨?_, Iff.rfl, Iff.rfl⟩⟩ <;>
    exact Float32.ge_zero_zero

/-- C4: the texture pointer is optional and stored unchanged. `Material(p)`
holds `nullptr`; `Material(p, t)` holds exactly `t`, for every pointer value
`t`, null, valid or dangling; and the material built is the same function of
the pointer value whatever that pointer refers to, since the constructor
receives the value alone. -/
theorem ctor_packed_stores_texture (p : MaterialPacked) :
    (Material.ctor_packed_no_texture p).m_texture = nullptr ∧
    (∀ t : TexturePtr, (Material.ctor_packed p t).m_texture = t) ∧
    (∀ t : TexturePtr,
      Material.ctor_packed p t =
        { Material.ctor_packed_no_texture p with m_texture := t }) :=
  ⟨rfl, fun _ => rfl, fun _ => rfl⟩

/-- C9: `GlassMaterial(p, t)` has the shadow-casting flag true, the
shadow-receiving flag true and the translucency flag false, for every bundle
`p`, every texture pointer `t` and every prior content of the flags. -/
theorem glass_ctor_packed_flags (storage : GlassMaterial) (p : MaterialPacked)
    (t : TexturePtr) :
    (GlassMaterial.ctor_packed storage p t).m_castShadow = true ∧
    (GlassMaterial.ctor_packed storage p t).m_receiveShadow = true ∧
    (GlassMaterial.ctor_packed storage p t).m_translucent = false :=
  ⟨rfl, rfl, rfl⟩

/-- C10: the packed constructor sets the reflective and the transparent colour
to the zero vector; two materials built from any two bundles and texture
pointers agree on both colours. -/
theorem ctor_packed_reflective_transparent_zero :
    (∀ (p : MaterialPacked) (t : TexturePtr),
      (Material.ctor_packed p t).m_colorReflective = vec3.zero ∧
      (Material.ctor_packed p t).m_colorTransparent = vec3.zero) ∧
    (∀ (p q : MaterialPacked) (t u : TexturePtr),
      (Material.ctor_packed p t).m_colorReflective
        = (Material.ctor_packed q u).m_colorReflective ∧
      (Material.ctor_packed p t).m_colorTransparent
        = (Material.ctor_packed q u).m_colorTransparent) :=
  ⟨fun _ _ => ⟨rfl, rfl⟩, fun _ _ _ _ => ⟨rfl, rfl⟩⟩

end TLVulkanRenderer
